import Mathlib

/-!
# AXP20x I2C driver: platform data initialisation and probe sequencing

A shallow embedding of `drivers/mfd/axp20x-i2c.c`.

* C `int` values are mathematical integers (`Int`); the result of an `int`
  addition and of a conversion to `int` is reduced to the 32-bit two's
  complement range by `wrap_int`.
* `>>`, `&` and `|` on `int` are `Int.shiftRight` (arithmetic shift),
  `Int.land` and `Int.lor` (two's complement).
* C arrays are total maps from the index to the element (`Nat → α`);
  `arr_set` is the store `a[i] = v`.
* `for (i = 0; i < n; i++) body` is `for_upto n body`.
* Calls into the kernel (ACPI table lookup, allocation, device matching,
  regmap, MFD probe) are inputs: their outcomes are fields of an environment
  record.
-/

namespace Axp20xI2c

/-! ## C integers, arrays and loops -/

/-- Reduction of an integer to the range of a 32-bit two's complement `int`. -/
def wrap_int (x : Int) : Int := (x + 2 ^ 31) % 2 ^ 32 - 2 ^ 31

/-- Least value of a C `int`. -/
def INT_MIN : Int := -(2 ^ 31)

/-- Greatest value of a C `int`. -/
def INT_MAX : Int := 2 ^ 31 - 1

/-- The store `a[i] = v` on an array seen as a map from indices. -/
def arr_set {α : Type} (a : Nat → α) (i : Nat) (v : α) : Nat → α :=
  fun j => if j = i then v else a j

/-- The loop `for (i = 0; i < n; i++) body(i)` on a state: `body 0` runs first,
`body (n - 1)` last. -/
def for_upto {σ : Type} : Nat → (Nat → σ → σ) → σ → σ
  | 0, _, s => s
  | n + 1, body, s => body n (for_upto n body s)

/-- A C string literal as a `char` array: its bytes, then NUL. -/
def c_string (bytes : List Nat) : Nat → Nat := fun i => bytes.getD i 0

/-! ## Constants -/

/-- The define `GPIO_USB_MUX_INDEX`. -/
def GPIO_USB_MUX_INDEX : Nat := 1

/-- The define `XPOWER_DEFAULT_TEMP_MAX`. -/
def XPOWER_DEFAULT_TEMP_MAX : Int := 45

/-- The table `static int fg_bat_curve[]`. -/
def fg_bat_curve : List Int :=
  [0x0, 0x0, 0x0, 0x0, 0x0, 0x0, 0x1, 0x2,
   0x2, 0x3, 0x5, 0x9, 0xf, 0x18, 0x24, 0x29,
   0x2e, 0x32, 0x35, 0x3b, 0x40, 0x45, 0x49, 0x4c,
   0x50, 0x53, 0x55, 0x57, 0x5a, 0x5d, 0x61, 0x64]

/-- The define `FGCONFIG_ACPI_TABLE_NAME`, "BCFG". -/
def FGCONFIG_ACPI_TABLE_NAME : List Nat := [66, 67, 70, 71]

/-- The define `XPWR_FGCONFIG_NAME`, "XPOWER-0". -/
def XPWR_FGCONFIG_NAME : List Nat := [88, 80, 79, 87, 69, 82, 45, 48]

/-- Modelled from the spec: `OCV_CURVE_SIZE` of `linux/mfd/axp20x.h` (the header is
not part of the sources); the calibration curve is a 32-entry table. -/
def OCV_CURVE_SIZE : Nat := 32

/-- Modelled from the spec: errno `ENOMEM` of the kernel headers (not part of the
sources). -/
def ENOMEM : Int := 12

/-- Modelled from the spec: errno `ENXIO` of the kernel headers (not part of the
sources). -/
def ENXIO : Int := 6

/-- Modelled from the spec: errno `EINVAL` of the kernel headers (not part of the
sources). -/
def EINVAL : Int := 22

/-- Modelled from the spec: `MAX_ERRNO` of `linux/err.h` (not part of the sources),
the number of error codes an error pointer can carry. -/
def MAX_ERRNO : Int := 4095

/-- Modelled from the spec: the sizes that `linux/mfd/axp20x.h` (not part of the
sources) fixes and the driver only names: the two string lengths and
`sizeof(struct axp288_acpi_fg_config)`. They are parameters of the model.
`CONFIG_ACPI` is the build option guarding the firmware path. -/
structure axp20x_header where
  ACPI_FG_CONF_NAME_LEN : Nat
  BATTID_STR_LEN : Nat
  sizeof_axp288_acpi_fg_config : Nat
  CONFIG_ACPI : Bool

/-! ## Data model -/

/-- Modelled from the spec: `struct axp20x_fg_pdata` of `linux/mfd/axp20x.h` (not
part of the sources), restricted to the members the driver touches. `battid` is a
`char` array, the other members hold C integers. -/
structure axp20x_fg_pdata where
  battid : Nat → Nat
  design_cap : Int
  min_volt : Int
  max_volt : Int
  max_temp : Int
  cap1 : Int
  cap0 : Int
  rdc1 : Int
  rdc0 : Int
  ocv_curve : Nat → Int

/-- Modelled from the spec: the member `cdata` of `struct axp288_acpi_fg_config`
(`linux/mfd/axp20x.h`, not part of the sources), restricted to the members the
driver reads. -/
structure axp288_fg_cdata where
  fg_name : Nat → Nat
  battid : Nat → Nat
  cap1 : Int
  cap0 : Int
  rdc1 : Int
  rdc0 : Int
  bat_curve : Nat → Int

/-- Modelled from the spec: `struct axp288_acpi_fg_config` (`linux/mfd/axp20x.h`,
not part of the sources): an ACPI table header followed by `cdata`. -/
structure axp288_acpi_fg_config where
  cdata : axp288_fg_cdata

/-- Outcome of `acpi_get_table_with_size("BCFG", 0, &acpi_tbl, &tbl_size)`: the
`acpi_status` (an unsigned 32-bit value, `AE_OK` is 0) and, for a successful
lookup, the table and its size. -/
structure acpi_lookup where
  status : Nat
  acpi_tbl : axp288_acpi_fg_config
  tbl_size : Nat

/-- Modelled from the spec: `struct axp20x_chrg_pdata` of `linux/mfd/axp20x.h` (not
part of the sources), restricted to the members the driver sets. -/
structure axp20x_chrg_pdata where
  def_cc : Int
  def_cv : Int
  max_cc : Int
  max_cv : Int

/-- A zero-filled `struct axp20x_fg_pdata` (a `static` object before its first
use). -/
def fg_pdata_zero : axp20x_fg_pdata :=
  { battid := fun _ => 0, design_cap := 0, min_volt := 0, max_volt := 0, max_temp := 0,
    cap1 := 0, cap0 := 0, rdc1 := 0, rdc0 := 0, ocv_curve := fun _ => 0 }

/-! ## Kernel helpers the driver calls -/

/-- Modelled from the spec: `strncmp` of the kernel library (`lib/string.c`, not
part of the sources), from position `i` of both strings: bytes are compared as
`unsigned char`, the comparison stops at the first difference, at a NUL, or after
`count` characters. -/
def strncmp_from (cs ct : Nat → Nat) (i : Nat) : Nat → Int
  | 0 => 0
  | count + 1 =>
    let c1 := cs i % 256
    let c2 := ct i % 256
    if c1 ≠ c2 then (if c1 < c2 then -1 else 1)
    else if c1 = 0 then 0
    else strncmp_from cs ct (i + 1) count

/-- Modelled from the spec: `strncmp(cs, ct, count)` of the kernel library (not part
of the sources). -/
def strncmp (cs ct : Nat → Nat) (count : Nat) : Int := strncmp_from cs ct 0 count

/-- Modelled from the spec: `ACPI_FAILURE(status)` of the ACPI headers (not part of
the sources): the status, an unsigned 32-bit value, differs from `AE_OK`. -/
def ACPI_FAILURE (status : Nat) : Bool := status % 2 ^ 32 != 0

/-- Modelled from the spec: `IS_ERR(ptr)` of `linux/err.h` (not part of the
sources), on the pointer read as a signed `long`: the value is one of the last
`MAX_ERRNO` addresses. -/
def IS_ERR (ptr : Int) : Bool := decide (-MAX_ERRNO ≤ ptr ∧ ptr < 0)

/-- Modelled from the spec: `PTR_ERR(ptr)` of `linux/err.h` (not part of the
sources): the pointer as a signed `long`. -/
def PTR_ERR (ptr : Int) : Int := ptr

/-! ## Fuel-gauge platform data -/

/-- The function `axp288_get_acpi_cdata`: the return value and the platform data
it leaves. -/
def axp288_get_acpi_cdata (hdr : axp20x_header) (acpi : acpi_lookup)
    (pdata : axp20x_fg_pdata) : Int × axp20x_fg_pdata :=
  let acpi_tbl := acpi.acpi_tbl
  let tbl_size := acpi.tbl_size
  let status := acpi.status
  if ACPI_FAILURE status then
    (wrap_int (status % 2 ^ 32), pdata)
  else if tbl_size < hdr.sizeof_axp288_acpi_fg_config then
    (- ENXIO, pdata)
  else if strncmp acpi_tbl.cdata.fg_name (c_string XPWR_FGCONFIG_NAME)
            hdr.ACPI_FG_CONF_NAME_LEN ≠ 0
        ∨ strncmp acpi_tbl.cdata.battid pdata.battid hdr.BATTID_STR_LEN ≠ 0 then
    (-EINVAL, pdata)
  else
    let pdata := for_upto hdr.BATTID_STR_LEN
      (fun i pd => { pd with battid := arr_set pd.battid i (acpi_tbl.cdata.battid i) }) pdata
    let pdata := { pdata with cap1 := acpi_tbl.cdata.cap1 }
    let pdata := { pdata with cap0 := acpi_tbl.cdata.cap0 }
    let pdata := { pdata with rdc1 := acpi_tbl.cdata.rdc1 }
    let pdata := { pdata with rdc0 := acpi_tbl.cdata.rdc0 }
    let pdata := for_upto OCV_CURVE_SIZE
      (fun i pd => { pd with ocv_curve := arr_set pd.ocv_curve i (acpi_tbl.cdata.bat_curve i) })
      pdata
    (0, pdata)

/-- The local `scaled_capacity` of `axp288_get_fg_config_data`, computed in `int`
arithmetic from `design_cap`. -/
def scaled_capacity (design_cap : Int) : Int :=
  wrap_int (wrap_int (Int.shiftRight design_cap 1 + Int.shiftRight design_cap 3)
    + Int.shiftRight design_cap 4)

/-- The function `axp288_get_fg_config_data`: the platform data it leaves. -/
def axp288_get_fg_config_data (hdr : axp20x_header) (acpi : acpi_lookup)
    (pdata : axp20x_fg_pdata) : axp20x_fg_pdata :=
  if hdr.CONFIG_ACPI = true ∧ (axp288_get_acpi_cdata hdr acpi pdata).1 = 0 then
    (axp288_get_acpi_cdata hdr acpi pdata).2
  else
    let scaled_capacity := scaled_capacity pdata.design_cap
    let pdata := { pdata with cap0 := Int.land scaled_capacity 0xFF }
    let pdata := { pdata with cap1 := Int.lor (Int.shiftRight scaled_capacity 8) 0x80 }
    let pdata := { pdata with rdc1 := 0xc0 }
    let pdata := { pdata with rdc0 := 0x97 }
    for_upto OCV_CURVE_SIZE
      (fun i pd => { pd with ocv_curve := arr_set pd.ocv_curve i (fg_bat_curve.getD i 0) })
      pdata

/-- The function `platform_set_battery_data`. -/
def platform_set_battery_data (pdata : axp20x_fg_pdata) : axp20x_fg_pdata :=
  let pdata := { pdata with design_cap := 4045 }
  let pdata := { pdata with max_volt := 4350 }
  { pdata with min_volt := 3400 }

/-- The function `axp288_fg_pdata`, from the current content of its `static`
record: the record it hands to `axp20x_set_pdata("axp288_fuel_gauge", ...)`. -/
def axp288_fg_pdata (hdr : axp20x_header) (acpi : acpi_lookup)
    (pdata : axp20x_fg_pdata) : axp20x_fg_pdata :=
  let pdata := platform_set_battery_data pdata
  let pdata := { pdata with max_temp := XPOWER_DEFAULT_TEMP_MAX }
  axp288_get_fg_config_data hdr acpi pdata

/-- The function `platform_init_chrg_params`. -/
def platform_init_chrg_params (pdata : axp20x_chrg_pdata) : axp20x_chrg_pdata :=
  let pdata := { pdata with def_cc := 500 }
  let pdata := { pdata with def_cv := 4200 }
  let pdata := { pdata with max_cc := 2000 }
  { pdata with max_cv := 4350 }

/-! ## Probe -/

/-- The calls of `axp20x_i2c_probe` into the kernel and into `axp288_init`. -/
inductive probe_step where
  | devm_kzalloc
  | axp20x_match_device
  | devm_regmap_init_i2c
  | axp288_init
  | axp20x_device_probe
  deriving DecidableEq

/-- Outcomes of the external steps of `axp20x_i2c_probe`: whether `devm_kzalloc`
returned memory, the result of `axp20x_match_device` and whether it found the
AXP288 variant, the pointer `devm_regmap_init_i2c` returned (as a signed `long`),
and the result of `axp20x_device_probe`. -/
structure probe_env where
  kzalloc_ok : Bool
  match_ret : Int
  variant_is_axp288 : Bool
  regmap : Int
  device_probe_ret : Int

/-- The function `axp20x_i2c_probe`: its return value and the steps it executed,
in order. -/
def axp20x_i2c_probe (env : probe_env) : Int × List probe_step :=
  let trace := [probe_step.devm_kzalloc]
  if !env.kzalloc_ok then
    (-ENOMEM, trace)
  else
    let trace := trace ++ [probe_step.axp20x_match_device]
    let ret := env.match_ret
    if ret ≠ 0 then
      (ret, trace)
    else
      let trace := trace ++ [probe_step.devm_regmap_init_i2c]
      if IS_ERR env.regmap then
        let ret := wrap_int (PTR_ERR env.regmap)
        (ret, trace)
      else
        let trace := if env.variant_is_axp288 then trace ++ [probe_step.axp288_init] else trace
        (env.device_probe_ret, trace ++ [probe_step.axp20x_device_probe])

/-- The steps of `axp20x_i2c_probe` in program order. -/
def probe_order : List probe_step :=
  [probe_step.devm_kzalloc, probe_step.axp20x_match_device,
   probe_step.devm_regmap_init_i2c, probe_step.axp288_init,
   probe_step.axp20x_device_probe]

/-! ## Concrete inputs used in the examples -/

/-- Header sizes with both string lengths 8 and a 100-byte table structure. -/
def hdr_example : axp20x_header :=
  { ACPI_FG_CONF_NAME_LEN := 8, BATTID_STR_LEN := 8,
    sizeof_axp288_acpi_fg_config := 100, CONFIG_ACPI := true }

/-- A firmware table named "XPOWER-0" with an empty battery id. -/
def tbl_example : axp288_acpi_fg_config :=
  { cdata := { fg_name := c_string XPWR_FGCONFIG_NAME, battid := fun _ => 0,
               cap1 := 0x8B, cap0 := 0x10, rdc1 := 0xc1, rdc0 := 0x90,
               bat_curve := fun i => 3 * i } }

/-- A lookup that does not find the table (status 5, `AE_NOT_FOUND`). -/
def lookup_missing : acpi_lookup :=
  { status := 5, acpi_tbl := tbl_example, tbl_size := 0 }

/-- A lookup that finds `tbl_example` with 120 bytes. -/
def lookup_found : acpi_lookup :=
  { status := 0, acpi_tbl := tbl_example, tbl_size := 120 }

/-- The record `axp288_fg_pdata` passes to `axp288_get_fg_config_data` on its first
call: the zero-filled `static` record after `platform_set_battery_data` and the
store to `max_temp`. -/
def pd_builtin : axp20x_fg_pdata :=
  { platform_set_battery_data fg_pdata_zero with max_temp := XPOWER_DEFAULT_TEMP_MAX }

/-! ## Arithmetic of the capacity scaling -/

theorem shiftRight_eq_ediv (c : Int) (n : Nat) : Int.shiftRight c n = c / 2 ^ n := by
  have h := Int.shiftRight_eq_div_pow c n
  simpa using h

theorem scaled_capacity_exact (c : Int) (hlo : INT_MIN ≤ c) (hhi : c ≤ INT_MAX) :
    scaled_capacity c = Int.shiftRight c 1 + Int.shiftRight c 3 + Int.shiftRight c 4 := by
  unfold INT_MIN at hlo
  unfold INT_MAX at hhi
  unfold scaled_capacity wrap_int
  simp only [shiftRight_eq_ediv]
  omega

theorem scaled_capacity_div (c : Int) (hlo : INT_MIN ≤ c) (hhi : c ≤ INT_MAX) :
    scaled_capacity c = c / 2 + c / 8 + c / 16 := by
  rw [scaled_capacity_exact c hlo hhi]
  simp only [shiftRight_eq_ediv]
  norm_num

/-! ## Bit operations on small non-negative values -/

theorem land_ofNat (a b : Nat) : Int.land (a : Int) (b : Int) = ((a &&& b : Nat) : Int) := rfl

theorem lor_ofNat (a b : Nat) : Int.lor (a : Int) (b : Int) = ((a ||| b : Nat) : Int) := rfl

theorem shiftRight_ofNat (a n : Nat) : Int.shiftRight (a : Int) n = ((a >>> n : Nat) : Int) := rfl

theorem or_flag_facts : ∀ q : Nat, q < 128 →
    (q ||| 128 = q + 128 ∧ (q ||| 128) &&& 128 = 128 ∧ (q ||| 128) &&& 127 = q) := by
  decide

theorem cap_bytes (n : Nat) (hn : n < 2 ^ 15) :
    Int.land (n : Int) 0xFF = ((n % 256 : Nat) : Int) ∧
    Int.lor (Int.shiftRight (n : Int) 8) 0x80 = ((n / 256 + 128 : Nat) : Int) ∧
    Int.land (Int.lor (Int.shiftRight (n : Int) 8) 0x80) 0x80 = 0x80 ∧
    Int.lor (Int.land (Int.lor (Int.shiftRight (n : Int) 8) 0x80) 0x7F <<< (8 : Int))
      (Int.land (n : Int) 0xFF) = (n : Int) := by
  have hq : n / 256 < 128 := by omega
  obtain ⟨h1, h2, h3⟩ := or_flag_facts (n / 256) hq
  have e0 : Int.land (n : Int) 0xFF = ((n % 256 : Nat) : Int) := by
    show ((n &&& 255 : Nat) : Int) = _
    rw [show (255 : Nat) = 2 ^ 8 - 1 from rfl, Nat.and_pow_two_sub_one_eq_mod]
  have e1 : Int.lor (Int.shiftRight (n : Int) 8) 0x80 = ((n / 256 ||| 128 : Nat) : Int) := by
    show ((n >>> 8 ||| 128 : Nat) : Int) = _
    rw [Nat.shiftRight_eq_div_pow]
  refine ⟨e0, ?_, ?_, ?_⟩
  · rw [e1, h1]
  · rw [e1]
    show (((n / 256 ||| 128) &&& 128 : Nat) : Int) = _
    rw [h2]; rfl
  · rw [e1, e0]
    have e2 : Int.land ((n / 256 ||| 128 : Nat) : Int) 0x7F = ((n / 256 : Nat) : Int) := by
      show (((n / 256 ||| 128) &&& 127 : Nat) : Int) = _
      rw [h3]
    rw [e2]
    have e3 : ((n / 256 : Nat) : Int) <<< (8 : Int) = ((2 ^ 8 * (n / 256) : Nat) : Int) := by
      have := Int.shiftLeft_eq_mul_pow ((n / 256 : Nat) : Int) 8
      simp only [Nat.cast_ofNat] at this
      rw [this]
      push_cast
      ring
    rw [e3, lor_ofNat, ← Nat.mul_add_lt_is_or (by omega)]
    congr 1
    omega

/-! ## The copy loops -/

theorem for_upto_battid (src : Nat → Nat) (n : Nat) (pd : axp20x_fg_pdata) :
    for_upto n (fun i p => { p with battid := arr_set p.battid i (src i) }) pd
      = { pd with battid := fun j => if j < n then src j else pd.battid j } := by
  induction n with
  | zero => simp [for_upto]
  | succ k ih =>
    simp only [for_upto, ih]
    congr 1
    funext j
    unfold arr_set
    by_cases h1 : j = k
    · subst h1; simp
    · by_cases h2 : j < k
      · have h3 : j < k + 1 := by omega
        simp [h1, h2, h3]
      · have h3 : ¬ j < k + 1 := by omega
        simp [h1, h2, h3]

theorem for_upto_ocv_curve (src : Nat → Int) (n : Nat) (pd : axp20x_fg_pdata) :
    for_upto n (fun i p => { p with ocv_curve := arr_set p.ocv_curve i (src i) }) pd
      = { pd with ocv_curve := fun j => if j < n then src j else pd.ocv_curve j } := by
  induction n with
  | zero => simp [for_upto]
  | succ k ih =>
    simp only [for_upto, ih]
    congr 1
    funext j
    unfold arr_set
    by_cases h1 : j = k
    · subst h1; simp
    · by_cases h2 : j < k
      · have h3 : j < k + 1 := by omega
        simp [h1, h2, h3]
      · have h3 : ¬ j < k + 1 := by omega
        simp [h1, h2, h3]

/-- The default path of `axp288_get_fg_config_data` as one record update. -/
theorem get_fg_config_data_default (hdr : axp20x_header) (acpi : acpi_lookup)
    (pd : axp20x_fg_pdata)
    (hfail : hdr.CONFIG_ACPI = true → (axp288_get_acpi_cdata hdr acpi pd).1 ≠ 0) :
    axp288_get_fg_config_data hdr acpi pd =
      { pd with
        cap0 := Int.land (scaled_capacity pd.design_cap) 0xFF
        cap1 := Int.lor (Int.shiftRight (scaled_capacity pd.design_cap) 8) 0x80
        rdc1 := 0xc0
        rdc0 := 0x97
        ocv_curve := fun j => if j < OCV_CURVE_SIZE then fg_bat_curve.getD j 0
                              else pd.ocv_curve j } := by
  have hc : ¬ (hdr.CONFIG_ACPI = true ∧ (axp288_get_acpi_cdata hdr acpi pd).1 = 0) :=
    fun h => hfail h.1 h.2
  unfold axp288_get_fg_config_data
  rw [if_neg hc]
  simp only [for_upto_ocv_curve]

/-- A failing ACPI status is a non-zero `int` once returned. -/
theorem acpi_failure_ret_ne_zero (status : Nat) (h : ACPI_FAILURE status = true) :
    wrap_int (status % 2 ^ 32) ≠ 0 := by
  unfold ACPI_FAILURE at h
  have h1 : status % 2 ^ 32 ≠ 0 := by simpa using h
  have h2 : status % 2 ^ 32 < 2 ^ 32 := Nat.mod_lt _ (by norm_num)
  unfold wrap_int
  omega

/-- The four exits of `axp288_get_acpi_cdata`, in program order. -/
theorem get_acpi_cdata_cases (hdr : axp20x_header) (acpi : acpi_lookup)
    (pd : axp20x_fg_pdata) :
    (ACPI_FAILURE acpi.status = true →
      axp288_get_acpi_cdata hdr acpi pd = (wrap_int (acpi.status % 2 ^ 32), pd)) ∧
    (ACPI_FAILURE acpi.status = false →
      acpi.tbl_size < hdr.sizeof_axp288_acpi_fg_config →
      axp288_get_acpi_cdata hdr acpi pd = (- ENXIO, pd)) ∧
    (ACPI_FAILURE acpi.status = false →
      hdr.sizeof_axp288_acpi_fg_config ≤ acpi.tbl_size →
      (strncmp acpi.acpi_tbl.cdata.fg_name (c_string XPWR_FGCONFIG_NAME)
          hdr.ACPI_FG_CONF_NAME_LEN ≠ 0
        ∨ strncmp acpi.acpi_tbl.cdata.battid pd.battid hdr.BATTID_STR_LEN ≠ 0) →
      axp288_get_acpi_cdata hdr acpi pd = (-EINVAL, pd)) ∧
    (ACPI_FAILURE acpi.status = false →
      hdr.sizeof_axp288_acpi_fg_config ≤ acpi.tbl_size →
      strncmp acpi.acpi_tbl.cdata.fg_name (c_string XPWR_FGCONFIG_NAME)
          hdr.ACPI_FG_CONF_NAME_LEN = 0 →
      strncmp acpi.acpi_tbl.cdata.battid pd.battid hdr.BATTID_STR_LEN = 0 →
      axp288_get_acpi_cdata hdr acpi pd =
        (0, { pd with
          battid := fun j => if j < hdr.BATTID_STR_LEN then acpi.acpi_tbl.cdata.battid j
                             else pd.battid j
          cap1 := acpi.acpi_tbl.cdata.cap1
          cap0 := acpi.acpi_tbl.cdata.cap0
          rdc1 := acpi.acpi_tbl.cdata.rdc1
          rdc0 := acpi.acpi_tbl.cdata.rdc0
          ocv_curve := fun j => if j < OCV_CURVE_SIZE then acpi.acpi_tbl.cdata.bat_curve j
                                else pd.ocv_curve j })) := by
  refine ⟨?_, ?_, ?_, ?_⟩
  · intro h
    unfold axp288_get_acpi_cdata
    simp only [h, if_true]
  · intro h hs
    unfold axp288_get_acpi_cdata
    simp [h, hs]
  · intro h hs hc
    have hs2 : ¬ acpi.tbl_size < hdr.sizeof_axp288_acpi_fg_config := by omega
    unfold axp288_get_acpi_cdata
    simp only [h, hs2, if_false, Bool.false_eq_true]
    rw [if_pos hc]
  · intro h hs hn hb
    have hs2 : ¬ acpi.tbl_size < hdr.sizeof_axp288_acpi_fg_config := by omega
    have hc : ¬ (strncmp acpi.acpi_tbl.cdata.fg_name (c_string XPWR_FGCONFIG_NAME)
          hdr.ACPI_FG_CONF_NAME_LEN ≠ 0
        ∨ strncmp acpi.acpi_tbl.cdata.battid pd.battid hdr.BATTID_STR_LEN ≠ 0) := by
      intro h'
      rcases h' with h' | h'
      · exact h' hn
      · exact h' hb
    unfold axp288_get_acpi_cdata
    simp only [h, hs2, if_false, Bool.false_eq_true]
    rw [if_neg hc]
    simp only [for_upto_battid, for_upto_ocv_curve]

/-- The return value of `axp288_get_acpi_cdata` is 0 exactly when all four checks
pass. -/
theorem get_acpi_cdata_zero_iff (hdr : axp20x_header) (acpi : acpi_lookup)
    (pd : axp20x_fg_pdata) :
    (axp288_get_acpi_cdata hdr acpi pd).1 = 0 ↔
      (ACPI_FAILURE acpi.status = false ∧
       hdr.sizeof_axp288_acpi_fg_config ≤ acpi.tbl_size ∧
       strncmp acpi.acpi_tbl.cdata.fg_name (c_string XPWR_FGCONFIG_NAME)
          hdr.ACPI_FG_CONF_NAME_LEN = 0 ∧
       strncmp acpi.acpi_tbl.cdata.battid pd.battid hdr.BATTID_STR_LEN = 0) := by
  obtain ⟨c1, c2, c3, c4⟩ := get_acpi_cdata_cases hdr acpi pd
  constructor
  · intro hz
    cases hf : ACPI_FAILURE acpi.status with
    | true =>
      rw [c1 hf] at hz
      exact absurd hz (acpi_failure_ret_ne_zero _ hf)
    | false =>
      by_cases hs : acpi.tbl_size < hdr.sizeof_axp288_acpi_fg_config
      · rw [c2 hf hs] at hz
        exact absurd hz (by simp [ ENXIO, EINVAL])
      · have hs2 : hdr.sizeof_axp288_acpi_fg_config ≤ acpi.tbl_size := by omega
        by_cases hn : strncmp acpi.acpi_tbl.cdata.fg_name (c_string XPWR_FGCONFIG_NAME)
            hdr.ACPI_FG_CONF_NAME_LEN = 0
        · by_cases hb : strncmp acpi.acpi_tbl.cdata.battid pd.battid hdr.BATTID_STR_LEN = 0
          · exact ⟨rfl, hs2, hn, hb⟩
          · rw [c3 hf hs2 (Or.inr hb)] at hz
            exact absurd hz (by simp [ ENXIO, EINVAL])
        · rw [c3 hf hs2 (Or.inl hn)] at hz
          exact absurd hz (by simp [ ENXIO, EINVAL])
  · rintro ⟨hf, hs, hn, hb⟩
    rw [c4 hf hs hn hb]

/-- The success path of `axp288_get_acpi_cdata` as one record update. -/
theorem get_acpi_cdata_success (hdr : axp20x_header) (acpi : acpi_lookup)
    (pd : axp20x_fg_pdata) (hok : (axp288_get_acpi_cdata hdr acpi pd).1 = 0) :
    (axp288_get_acpi_cdata hdr acpi pd).2 =
      { pd with
        battid := fun j => if j < hdr.BATTID_STR_LEN then acpi.acpi_tbl.cdata.battid j
                           else pd.battid j
        cap1 := acpi.acpi_tbl.cdata.cap1
        cap0 := acpi.acpi_tbl.cdata.cap0
        rdc1 := acpi.acpi_tbl.cdata.rdc1
        rdc0 := acpi.acpi_tbl.cdata.rdc0
        ocv_curve := fun j => if j < OCV_CURVE_SIZE then acpi.acpi_tbl.cdata.bat_curve j
                              else pd.ocv_curve j } := by
  obtain ⟨hf, hs, hn, hb⟩ := (get_acpi_cdata_zero_iff hdr acpi pd).1 hok
  rw [(get_acpi_cdata_cases hdr acpi pd).2.2.2 hf hs hn hb]

/-! ## The default calibration table -/

/-- C4: the default calibration table `fg_bat_curve` has exactly 32 entries (as many
as `OCV_CURVE_SIZE`), is monotonically non-decreasing over the indices 0..31, and
every entry is an 8-bit value; it runs from 0x0 at index 0 to 0x64 at index 31. -/
theorem fg_bat_curve_table :
    fg_bat_curve.length = 32 ∧ fg_bat_curve.length = OCV_CURVE_SIZE ∧
    (∀ i j : Nat, i ≤ j → j ≤ 31 → fg_bat_curve.getD i 0 ≤ fg_bat_curve.getD j 0) ∧
    (∀ i : Nat, i ≤ 31 → 0 ≤ fg_bat_curve.getD i 0 ∧ fg_bat_curve.getD i 0 ≤ 255) ∧
    (∀ i : Nat, i ≤ 31 → 0x0 ≤ fg_bat_curve.getD i 0 ∧ fg_bat_curve.getD i 0 ≤ 0x64) ∧
    fg_bat_curve.getD 0 0 = 0x0 ∧ fg_bat_curve.getD 31 0 = 0x64 := by
  have hmono : ∀ j : Nat, j < 32 → ∀ i : Nat, i < j + 1 →
      fg_bat_curve.getD i 0 ≤ fg_bat_curve.getD j 0 := by decide
  have hrange : ∀ i : Nat, i < 32 →
      0 ≤ fg_bat_curve.getD i 0 ∧ fg_bat_curve.getD i 0 ≤ 0x64 := by decide
  refine ⟨rfl, rfl, ?_, ?_, ?_, rfl, rfl⟩
  · intro i j hij hj
    exact hmono j (by omega) i (by omega)
  · intro i hi
    have h := hrange i (by omega)
    exact ⟨h.1, le_trans h.2 (by norm_num)⟩
  · intro i hi
    exact hrange i (by omega)

/-! ## Fallback to the defaults -/

/-- C1: fallback to hardcoded defaults. For every initial platform data (with
`design_cap` a C `int`) and every failing outcome of `axp288_get_acpi_cdata` (any
non-zero return; also when the firmware path is compiled out), after
`axp288_get_fg_config_data` we have `rdc1 = 0xc0`, `rdc0 = 0x97`,
`ocv_curve[i] = fg_bat_curve[i]` for every `i < OCV_CURVE_SIZE = 32`,
`cap0 = s & 0xFF` and `cap1 = (s >> 8) | 0x80` for
`s = (design_cap >> 1) + (design_cap >> 3) + (design_cap >> 4)`, and `design_cap`,
`min_volt`, `max_volt`, `max_temp` and `battid` are unchanged; for the built-in
`design_cap` 4045 set by `platform_set_battery_data`, `s = 2779`, `cap0 = 0xDB` and
`cap1 = 0x8A`. -/
theorem axp288_get_fg_config_data_default_fallback (hdr : axp20x_header)
    (acpi : acpi_lookup) (pd : axp20x_fg_pdata)
    (hlo : INT_MIN ≤ pd.design_cap) (hhi : pd.design_cap ≤ INT_MAX)
    (hfail : hdr.CONFIG_ACPI = true → (axp288_get_acpi_cdata hdr acpi pd).1 ≠ 0) :
    (axp288_get_fg_config_data hdr acpi pd).rdc1 = 0xc0 ∧
    (axp288_get_fg_config_data hdr acpi pd).rdc0 = 0x97 ∧
    OCV_CURVE_SIZE = 32 ∧
    (∀ i : Nat, i < OCV_CURVE_SIZE →
      (axp288_get_fg_config_data hdr acpi pd).ocv_curve i = fg_bat_curve.getD i 0) ∧
    (axp288_get_fg_config_data hdr acpi pd).cap0 =
      Int.land (Int.shiftRight pd.design_cap 1 + Int.shiftRight pd.design_cap 3
        + Int.shiftRight pd.design_cap 4) 0xFF ∧
    (axp288_get_fg_config_data hdr acpi pd).cap1 =
      Int.lor (Int.shiftRight (Int.shiftRight pd.design_cap 1 + Int.shiftRight pd.design_cap 3
        + Int.shiftRight pd.design_cap 4) 8) 0x80 ∧
    (axp288_get_fg_config_data hdr acpi pd).design_cap = pd.design_cap ∧
    (axp288_get_fg_config_data hdr acpi pd).min_volt = pd.min_volt ∧
    (axp288_get_fg_config_data hdr acpi pd).max_volt = pd.max_volt ∧
    (axp288_get_fg_config_data hdr acpi pd).max_temp = pd.max_temp ∧
    (axp288_get_fg_config_data hdr acpi pd).battid = pd.battid ∧
    (∀ p : axp20x_fg_pdata, (platform_set_battery_data p).design_cap = 4045) ∧
    (pd.design_cap = 4045 →
      Int.shiftRight pd.design_cap 1 + Int.shiftRight pd.design_cap 3
        + Int.shiftRight pd.design_cap 4 = 2779 ∧
      (axp288_get_fg_config_data hdr acpi pd).cap0 = 0xDB ∧
      (axp288_get_fg_config_data hdr acpi pd).cap1 = 0x8A) := by
  rw [get_fg_config_data_default hdr acpi pd hfail, scaled_capacity_exact _ hlo hhi]
  refine ⟨rfl, rfl, rfl, ?_, rfl, rfl, rfl, rfl, rfl, rfl, rfl, fun _ => rfl, ?_⟩
  · intro i hi
    simp only [hi, if_true]
  · intro h
    simp only [h]
    decide

/-- Instance of C1: `axp288_fg_pdata` on its zero-filled record with a lookup that does
not find the table. -/
theorem axp288_get_fg_config_data_default_fallback_witness :
    (INT_MIN ≤ pd_builtin.design_cap ∧ pd_builtin.design_cap ≤ INT_MAX ∧
      (hdr_example.CONFIG_ACPI = true →
        (axp288_get_acpi_cdata hdr_example lookup_missing pd_builtin).1 ≠ 0)) ∧
    (axp288_fg_pdata hdr_example lookup_missing fg_pdata_zero).rdc1 = 0xc0 ∧
    (axp288_fg_pdata hdr_example lookup_missing fg_pdata_zero).rdc0 = 0x97 ∧
    (axp288_fg_pdata hdr_example lookup_missing fg_pdata_zero).cap0 = 0xDB ∧
    (axp288_fg_pdata hdr_example lookup_missing fg_pdata_zero).cap1 = 0x8A :=
  have h := axp288_get_fg_config_data_default_fallback hdr_example lookup_missing pd_builtin
    (by decide) (by decide) (by decide)
  ⟨⟨by decide, by decide, by decide⟩, h.1, h.2.1,
    (h.2.2.2.2.2.2.2.2.2.2.2.2 rfl).2.1, (h.2.2.2.2.2.2.2.2.2.2.2.2 rfl).2.2⟩

/-! ## Population from the firmware table -/

/-- C2: population from the firmware table. With the firmware path compiled in,
whenever `axp288_get_acpi_cdata` returns 0 for a table `T`, the platform data it
leaves has `cap1 = T.cap1`, `cap0 = T.cap0`, `rdc1 = T.rdc1`, `rdc0 = T.rdc0`,
`battid[i] = T.battid[i]` for every `i < BATTID_STR_LEN` and
`ocv_curve[i] = T.bat_curve[i]` for every `i < OCV_CURVE_SIZE`, and
`axp288_get_fg_config_data` returns exactly that record: no hardcoded default is
applied on top of it. -/
theorem axp288_get_fg_config_data_from_acpi (hdr : axp20x_header)
    (acpi : acpi_lookup) (pd : axp20x_fg_pdata)
    (hacpi : hdr.CONFIG_ACPI = true)
    (hok : (axp288_get_acpi_cdata hdr acpi pd).1 = 0) :
    (axp288_get_acpi_cdata hdr acpi pd).2.cap1 = acpi.acpi_tbl.cdata.cap1 ∧
    (axp288_get_acpi_cdata hdr acpi pd).2.cap0 = acpi.acpi_tbl.cdata.cap0 ∧
    (axp288_get_acpi_cdata hdr acpi pd).2.rdc1 = acpi.acpi_tbl.cdata.rdc1 ∧
    (axp288_get_acpi_cdata hdr acpi pd).2.rdc0 = acpi.acpi_tbl.cdata.rdc0 ∧
    (∀ i : Nat, i < hdr.BATTID_STR_LEN →
      (axp288_get_acpi_cdata hdr acpi pd).2.battid i = acpi.acpi_tbl.cdata.battid i) ∧
    (∀ i : Nat, i < OCV_CURVE_SIZE →
      (axp288_get_acpi_cdata hdr acpi pd).2.ocv_curve i = acpi.acpi_tbl.cdata.bat_curve i) ∧
    axp288_get_fg_config_data hdr acpi pd = (axp288_get_acpi_cdata hdr acpi pd).2 := by
  have hfg : axp288_get_fg_config_data hdr acpi pd = (axp288_get_acpi_cdata hdr acpi pd).2 := by
    unfold axp288_get_fg_config_data
    rw [if_pos ⟨hacpi, hok⟩]
  rw [hfg, get_acpi_cdata_success hdr acpi pd hok]
  refine ⟨rfl, rfl, rfl, rfl, ?_, ?_, rfl⟩
  · intro i hi
    simp only [hi, if_true]
  · intro i hi
    simp only [hi, if_true]

/-- Instance of C2: a lookup that finds a valid table whose values differ from every
default. -/
theorem axp288_get_fg_config_data_from_acpi_witness :
    (hdr_example.CONFIG_ACPI = true ∧
      (axp288_get_acpi_cdata hdr_example lookup_found pd_builtin).1 = 0) ∧
    (axp288_get_fg_config_data hdr_example lookup_found pd_builtin).rdc1 = 0xc1 ∧
    (axp288_get_fg_config_data hdr_example lookup_found pd_builtin).cap1 = 0x8B ∧
    (axp288_get_fg_config_data hdr_example lookup_found pd_builtin).ocv_curve 31 = 93 :=
  have h := axp288_get_fg_config_data_from_acpi hdr_example lookup_found pd_builtin
    (by decide) (by decide)
  ⟨⟨by decide, by decide⟩,
    h.2.2.2.2.2.2 ▸ h.2.2.1, h.2.2.2.2.2.2 ▸ h.1, h.2.2.2.2.2.2 ▸ h.2.2.2.2.2.1 31 (by decide)⟩

/-! ## Validation of the firmware table -/

/-- C3: validation of the firmware table. `axp288_get_acpi_cdata` returns 0 if and
only if the "BCFG" lookup succeeds, the table size is at least
`sizeof(struct axp288_acpi_fg_config)`, the table's `fg_name` equals "XPOWER-0"
under `strncmp` over `ACPI_FG_CONF_NAME_LEN` characters and the table's `battid`
equals `pdata->battid` under `strncmp` over `BATTID_STR_LEN` characters; otherwise
it returns, checking in this order, the (non-zero) ACPI failure status when the
lookup fails, `-ENXIO` when the table is too small, and `-EINVAL` when the name or
the battery-id comparison differs. -/
theorem axp288_get_acpi_cdata_validation (hdr : axp20x_header) (acpi : acpi_lookup)
    (pd : axp20x_fg_pdata) :
    ((axp288_get_acpi_cdata hdr acpi pd).1 = 0 ↔
      (ACPI_FAILURE acpi.status = false ∧
       hdr.sizeof_axp288_acpi_fg_config ≤ acpi.tbl_size ∧
       strncmp acpi.acpi_tbl.cdata.fg_name (c_string XPWR_FGCONFIG_NAME)
          hdr.ACPI_FG_CONF_NAME_LEN = 0 ∧
       strncmp acpi.acpi_tbl.cdata.battid pd.battid hdr.BATTID_STR_LEN = 0)) ∧
    (ACPI_FAILURE acpi.status = true →
      (axp288_get_acpi_cdata hdr acpi pd).1 = wrap_int (acpi.status % 2 ^ 32) ∧
      (axp288_get_acpi_cdata hdr acpi pd).1 ≠ 0) ∧
    (ACPI_FAILURE acpi.status = false →
      acpi.tbl_size < hdr.sizeof_axp288_acpi_fg_config →
      (axp288_get_acpi_cdata hdr acpi pd).1 = - ENXIO) ∧
    (ACPI_FAILURE acpi.status = false →
      hdr.sizeof_axp288_acpi_fg_config ≤ acpi.tbl_size →
      (strncmp acpi.acpi_tbl.cdata.fg_name (c_string XPWR_FGCONFIG_NAME)
          hdr.ACPI_FG_CONF_NAME_LEN ≠ 0
        ∨ strncmp acpi.acpi_tbl.cdata.battid pd.battid hdr.BATTID_STR_LEN ≠ 0) →
      (axp288_get_acpi_cdata hdr acpi pd).1 = -EINVAL) := by
  obtain ⟨c1, c2, c3, _⟩ := get_acpi_cdata_cases hdr acpi pd
  refine ⟨get_acpi_cdata_zero_iff hdr acpi pd, ?_, ?_, ?_⟩
  · intro hf
    rw [c1 hf]
    exact ⟨rfl, acpi_failure_ret_ne_zero _ hf⟩
  · intro hf hs
    rw [c2 hf hs]
  · intro hf hs hc
    rw [c3 hf hs hc]

/-! ## Probe sequencing -/

/-- C5: `axp20x_i2c_probe` is a linear sequence with immediate failure return. It
returns `-ENOMEM` if allocation fails; otherwise the non-zero result of
`axp20x_match_device` if matching fails; otherwise the regmap error code
(`PTR_ERR`) if regmap initialisation fails; otherwise exactly the result of
`axp20x_device_probe`. In each case the executed steps stop at the first failing
one, every step is executed at most once and in program order, and whenever the
collaborators report failures as negative codes the value returned on failure is
negative. -/
theorem axp20x_i2c_probe_linear (env : probe_env) :
    (env.kzalloc_ok = false →
      axp20x_i2c_probe env = (-ENOMEM, [probe_step.devm_kzalloc])) ∧
    (env.kzalloc_ok = true → env.match_ret ≠ 0 →
      axp20x_i2c_probe env =
        (env.match_ret, [probe_step.devm_kzalloc, probe_step.axp20x_match_device])) ∧
    (env.kzalloc_ok = true → env.match_ret = 0 → IS_ERR env.regmap = true →
      axp20x_i2c_probe env =
        (PTR_ERR env.regmap, [probe_step.devm_kzalloc, probe_step.axp20x_match_device,
          probe_step.devm_regmap_init_i2c])) ∧
    (env.kzalloc_ok = true → env.match_ret = 0 → IS_ERR env.regmap = false →
      axp20x_i2c_probe env =
        (env.device_probe_ret,
          [probe_step.devm_kzalloc, probe_step.axp20x_match_device,
            probe_step.devm_regmap_init_i2c]
          ++ (if env.variant_is_axp288 = true then [probe_step.axp288_init] else [])
          ++ [probe_step.axp20x_device_probe])) ∧
    (axp20x_i2c_probe env).2.Nodup ∧
    (axp20x_i2c_probe env).2.Sublist probe_order ∧
    ((env.match_ret ≠ 0 → env.match_ret < 0) →
      (env.device_probe_ret ≠ 0 → env.device_probe_ret < 0) →
      (axp20x_i2c_probe env).1 ≠ 0 → (axp20x_i2c_probe env).1 < 0) := by
  have hptr : IS_ERR env.regmap = true →
      wrap_int env.regmap = env.regmap ∧ env.regmap < 0 := by
    intro h
    unfold IS_ERR MAX_ERRNO at h
    have h2 : -4095 ≤ env.regmap ∧ env.regmap < 0 := by simpa using h
    unfold wrap_int
    omega
  cases hk : env.kzalloc_ok with
  | false =>
    have e : axp20x_i2c_probe env = (-ENOMEM, [probe_step.devm_kzalloc]) := by
      unfold axp20x_i2c_probe
      simp [hk]
    rw [e]
    refine ⟨fun _ => rfl, ?_, ?_, ?_, by dsimp only; decide, by dsimp only; decide, ?_⟩
    · intro h; exact absurd h (by simp)
    · intro h; exact absurd h (by simp)
    · intro h; exact absurd h (by simp)
    · intro _ _ _
      show -ENOMEM < 0
      decide
  | true =>
    by_cases hm : env.match_ret = 0
    · cases hr : IS_ERR env.regmap with
      | true =>
        obtain ⟨hw, hneg⟩ := hptr hr
        have e : axp20x_i2c_probe env =
            (PTR_ERR env.regmap, [probe_step.devm_kzalloc, probe_step.axp20x_match_device,
              probe_step.devm_regmap_init_i2c]) := by
          unfold axp20x_i2c_probe
          simp [hk, hm, hr, hw, PTR_ERR]
        rw [e]
        refine ⟨?_, ?_, fun _ _ _ => rfl, ?_, by dsimp only; decide, by dsimp only; decide, ?_⟩
        · intro h; exact absurd h (by simp)
        · intro _ h; exact absurd hm h
        · intro _ _ h; exact absurd h (by simp)
        · intro _ _ _
          exact hneg
      | false =>
        have e : axp20x_i2c_probe env =
            (env.device_probe_ret,
              [probe_step.devm_kzalloc, probe_step.axp20x_match_device,
                probe_step.devm_regmap_init_i2c]
              ++ (if env.variant_is_axp288 = true then [probe_step.axp288_init] else [])
              ++ [probe_step.axp20x_device_probe]) := by
          unfold axp20x_i2c_probe
          cases hv : env.variant_is_axp288 <;> simp [hk, hm, hr]
        rw [e]
        refine ⟨?_, ?_, ?_, fun _ _ _ => rfl, ?_, ?_, ?_⟩
        · intro h; exact absurd h (by simp)
        · intro _ h; exact absurd hm h
        · intro _ _ h; exact absurd h (by simp)
        · cases env.variant_is_axp288 <;> dsimp only <;> decide
        · cases env.variant_is_axp288 <;> dsimp only <;> decide
        · intro _ hd hne
          exact hd hne
    · have e : axp20x_i2c_probe env =
          (env.match_ret, [probe_step.devm_kzalloc, probe_step.axp20x_match_device]) := by
        unfold axp20x_i2c_probe
        simp [hk, hm]
      rw [e]
      refine ⟨?_, fun _ _ => rfl, ?_, ?_, by dsimp only; decide, by dsimp only; decide, ?_⟩
      · intro h; exact absurd h (by simp)
      · intro _ h; exact absurd h hm
      · intro _ h; exact absurd h hm
      · intro hneg _ hne
        exact hneg hne

/-! ## Capacity registers -/

/-- C6: capacity register encoding in the default path of
`axp288_get_fg_config_data`. For every `design_cap` with
`0 <= design_cap <= 47663`, `cap0` and `cap1` are both 8-bit values, bit 7 of `cap1`
is set, and the scaled capacity is recovered exactly from the two registers:
`((cap1 & 0x7F) << 8) | cap0 = scaled_capacity`. The range of `design_cap` is the one
where `0 <= scaled_capacity < 2^15`. -/
theorem axp288_get_fg_config_data_cap_encoding (hdr : axp20x_header)
    (acpi : acpi_lookup) (pd : axp20x_fg_pdata)
    (h0 : 0 ≤ pd.design_cap) (h1 : pd.design_cap ≤ 47663)
    (hfail : hdr.CONFIG_ACPI = true → (axp288_get_acpi_cdata hdr acpi pd).1 ≠ 0) :
    (0 ≤ (axp288_get_fg_config_data hdr acpi pd).cap0 ∧
      (axp288_get_fg_config_data hdr acpi pd).cap0 ≤ 255) ∧
    (0 ≤ (axp288_get_fg_config_data hdr acpi pd).cap1 ∧
      (axp288_get_fg_config_data hdr acpi pd).cap1 ≤ 255) ∧
    Int.land (axp288_get_fg_config_data hdr acpi pd).cap1 0x80 = 0x80 ∧
    Int.lor (Int.land (axp288_get_fg_config_data hdr acpi pd).cap1 0x7F <<< (8 : Int))
      (axp288_get_fg_config_data hdr acpi pd).cap0 = scaled_capacity pd.design_cap ∧
    (∀ c : Int, INT_MIN ≤ c → c ≤ INT_MAX →
      ((0 ≤ c ∧ c ≤ 47663) ↔ (0 ≤ scaled_capacity c ∧ scaled_capacity c < 2 ^ 15))) := by
  have hlo : INT_MIN ≤ pd.design_cap := le_trans (by decide) h0
  have hhi : pd.design_cap ≤ INT_MAX := le_trans h1 (by decide)
  have hs := scaled_capacity_div pd.design_cap hlo hhi
  have hs0 : 0 ≤ scaled_capacity pd.design_cap := by omega
  have hs1 : scaled_capacity pd.design_cap < 2 ^ 15 := by omega
  obtain ⟨n, hn⟩ := Int.eq_ofNat_of_zero_le hs0
  have hn15 : n < 2 ^ 15 := by omega
  obtain ⟨b0, b1, b2, b3⟩ := cap_bytes n hn15
  rw [get_fg_config_data_default hdr acpi pd hfail]
  dsimp only
  rw [hn]
  refine ⟨?_, ?_, b2, b3, ?_⟩
  · rw [b0]; omega
  · rw [b1]; omega
  · intro c hc0 hc1
    rw [scaled_capacity_div c hc0 hc1]
    unfold INT_MIN at hc0
    unfold INT_MAX at hc1
    omega

/-- Instance of C6: the built-in capacity 4045 with no firmware table. -/
theorem axp288_get_fg_config_data_cap_encoding_witness :
    (0 ≤ pd_builtin.design_cap ∧ pd_builtin.design_cap ≤ 47663 ∧
      (hdr_example.CONFIG_ACPI = true →
        (axp288_get_acpi_cdata hdr_example lookup_missing pd_builtin).1 ≠ 0)) ∧
    Int.land (axp288_get_fg_config_data hdr_example lookup_missing pd_builtin).cap1 0x80
      = 0x80 ∧
    Int.lor
      (Int.land (axp288_get_fg_config_data hdr_example lookup_missing pd_builtin).cap1 0x7F
        <<< (8 : Int))
      (axp288_get_fg_config_data hdr_example lookup_missing pd_builtin).cap0
      = scaled_capacity pd_builtin.design_cap :=
  have h := axp288_get_fg_config_data_cap_encoding hdr_example lookup_missing pd_builtin
    (by decide) (by decide) (by decide)
  ⟨⟨by decide, by decide, by decide⟩, h.2.2.1, h.2.2.2.1⟩

/-! ## Accuracy of the capacity scaling -/

/-- C7, as stated, fails: for the built-in design capacity 4045 the scaled capacity
is 2779 and `3 * scaled_capacity - 2 * design_cap` is 247, not below 9; hence the
bound does not hold for every non-negative `int`. -/
theorem scaled_capacity_not_within_three_lsb_of_1_5 :
    scaled_capacity 4045 = 2779 ∧
    3 * scaled_capacity 4045 - 2 * 4045 = 247 ∧
    ¬ (|3 * scaled_capacity 4045 - 2 * 4045| < 9) ∧
    ¬ (∀ c : Int, 0 ≤ c → c ≤ INT_MAX → |3 * scaled_capacity c - 2 * c| < 9) := by
  have e : scaled_capacity 4045 = 2779 := by decide
  have h3 : ¬ (|3 * scaled_capacity 4045 - 2 * 4045| < 9) := by
    rw [e]; norm_num
  refine ⟨e, by rw [e]; norm_num, h3, ?_⟩
  intro h
  exact h3 (h 4045 (by decide) (by decide))

/-- C7, amended: the default path converts the design capacity to fuel-gauge LSBs
with 16/11 (about 1.4545) mAh per LSB. For every `design_cap >= 0` within `int`
range, `scaled_capacity` differs from `design_cap / (16/11)` by less than 3 LSB, that
is `|16 * scaled_capacity - 11 * design_cap| < 48`; against `design_cap / 1.5` the
difference grows with the capacity:
`design_cap - 111 <= 16 * (3 * scaled_capacity - 2 * design_cap) <= design_cap`. -/
theorem scaled_capacity_within_three_lsb_of_16_11 (c : Int)
    (h0 : 0 ≤ c) (h1 : c ≤ INT_MAX) :
    |16 * scaled_capacity c - 11 * c| < 48 ∧
    c - 111 ≤ 16 * (3 * scaled_capacity c - 2 * c) ∧
    16 * (3 * scaled_capacity c - 2 * c) ≤ c := by
  have hlo : INT_MIN ≤ c := le_trans (by decide) h0
  rw [scaled_capacity_div c hlo h1, abs_lt]
  omega

/-- Instance of amended C7: the built-in capacity 4045. -/
theorem scaled_capacity_within_three_lsb_of_16_11_witness :
    ((0 : Int) ≤ 4045 ∧ (4045 : Int) ≤ INT_MAX) ∧
    |16 * scaled_capacity 4045 - 11 * 4045| < 48 :=
  ⟨⟨by decide, by decide⟩,
    (scaled_capacity_within_three_lsb_of_16_11 4045 (by decide) (by decide)).1⟩

/-- C8: exact error bound of the shift-based capacity scaling. For every
`design_cap` `c` with `0 <= c < 2^31`, neither addition of
`(c >> 1) + (c >> 3) + (c >> 4)` leaves the range of a 32-bit signed `int`, so
`scaled_capacity` is the exact sum `s`, and `11*c - 37 <= 16*s <= 11*c`; the upper
bound is attained at `c = 0` and the lower bound at `c = 15`. -/
theorem scaled_capacity_error_bound (c : Int) (h0 : 0 ≤ c) (h1 : c < 2 ^ 31) :
    (INT_MIN ≤ Int.shiftRight c 1 + Int.shiftRight c 3 ∧
      Int.shiftRight c 1 + Int.shiftRight c 3 ≤ INT_MAX) ∧
    (INT_MIN ≤ Int.shiftRight c 1 + Int.shiftRight c 3 + Int.shiftRight c 4 ∧
      Int.shiftRight c 1 + Int.shiftRight c 3 + Int.shiftRight c 4 ≤ INT_MAX) ∧
    scaled_capacity c = Int.shiftRight c 1 + Int.shiftRight c 3 + Int.shiftRight c 4 ∧
    11 * c - 37 ≤ 16 * scaled_capacity c ∧
    16 * scaled_capacity c ≤ 11 * c ∧
    16 * scaled_capacity 0 = 11 * 0 ∧
    16 * scaled_capacity 15 = 11 * 15 - 37 := by
  have hlo : INT_MIN ≤ c := le_trans (by decide) h0
  have hhi : c ≤ INT_MAX := by unfold INT_MAX; omega
  have hd := scaled_capacity_div c hlo hhi
  have he := scaled_capacity_exact c hlo hhi
  refine ⟨?_, ?_, he, ?_, ?_, by decide, by decide⟩
  · simp only [shiftRight_eq_ediv]
    unfold INT_MIN INT_MAX
    omega
  · rw [← he, hd]
    unfold INT_MIN INT_MAX
    omega
  · rw [hd]; omega
  · rw [hd]; omega

/-- Instance of C8: the built-in capacity 4045. -/
theorem scaled_capacity_error_bound_witness :
    ((0 : Int) ≤ 4045 ∧ (4045 : Int) < 2 ^ 31) ∧
    11 * 4045 - 37 ≤ 16 * scaled_capacity 4045 ∧
    16 * scaled_capacity 4045 ≤ 11 * 4045 :=
  have h := scaled_capacity_error_bound 4045 (by decide) (by decide)
  ⟨⟨by decide, by decide⟩, h.2.2.2.1, h.2.2.2.2.1⟩

end Axp20xI2c
